import Mathlib

/-!
Verification development for the AWS Landing Zone configuration tool.

The definitions below are a shallow embedding of the cost-calculation core of
the repository: the shared data model (`shared/schema.ts`), the static feature
catalog and tier list, the cost calculator `calculateCosts`, the static pricing
lookups (`shared/pricing-loader.ts`), the AWS live-pricing cache
(`buildAWSPricingCache`, `getCachedAWSPricing`, `isAWSPricingCacheValid`), and
the submission route's cost computation (`server/routes.ts`).

TypeScript numbers are modelled as rationals (`ℚ`): all the arithmetic in the
engine is plain addition and multiplication of modest decimal constants, which
is exact in both float and rational arithmetic.  Fallible or stateful pieces
(the module-level pricing cache, the network fetches of the live overlay) are
modelled by explicit state / environment arguments.
-/

namespace AWSLZ

/-- Configuration size values of the `z.enum(["very-small", "small", "medium", "large"])`
in `shared/schema.ts`. -/
inductive Size where
  | verySmall
  | small
  | medium
  | large
deriving DecidableEq, Repr

/-- The string value each size takes at runtime (the `z.enum` literal). -/
def Size.code : Size → String
  | .verySmall => "very-small"
  | .small => "small"
  | .medium => "medium"
  | .large => "large"

/-- Feature categories of `featureSchema` in `shared/schema.ts`. -/
inductive Category where
  | foundation
  | security
  | networking
  | automation
  | monitoring
deriving DecidableEq, Repr

/-- `featureSchema` of `shared/schema.ts`. -/
structure Feature where
  id : String
  name : String
  description : String
  category : Category
  mandatory : Bool
  infraCostImpact : ℚ
  professionalServicesCostImpact : ℚ
  availableInSizes : List Size
deriving DecidableEq, Repr

/-- `landingZoneConfigSchema` of `shared/schema.ts`. -/
structure LandingZoneConfig where
  size : Size
  name : String
  description : String
  accountStructure : String
  organizationalStructure : String
  defaultVMs : ℚ
  defaultStorageTB : ℚ
  baseInfraCostPerMonth : ℚ
  baseProfessionalServicesCost : ℚ
  managedServicesCostPerEC2 : ℚ
  managedServicesCostPerTBStorage : ℚ
  availableFeatures : List String
  mandatoryFeatures : List String
deriving DecidableEq, Repr

/-- `additionalCostSchema` of `shared/schema.ts`. -/
structure AdditionalCost where
  id : String
  description : String
  amount : ℚ
deriving DecidableEq, Repr

/-- The `CostBreakdown` interface of the cost-calculation engine
(`shared/costCalculations.ts`). -/
structure CostBreakdown where
  baseInfrastructureCost : ℚ
  featuresInfrastructureCost : ℚ
  totalInfrastructureCost : ℚ
  baseProfessionalServicesCost : ℚ
  featuresProfessionalServicesCost : ℚ
  additionalCostsTotal : ℚ
  totalProfessionalServicesCost : ℚ
  migrationCost : ℚ
  migrationCostPerVM : ℚ
  migrationVMCount : ℚ
  managedServicesEC2Cost : ℚ
  managedServicesStorageCost : ℚ
  totalManagedServicesCost : ℚ
  totalMonthlyCost : ℚ
  totalFirstYearCost : ℚ
deriving DecidableEq, Repr

/-- The static feature catalog `availableFeatures` of `shared/schema.ts`
(fifteen feature definitions with their cost deltas and size availability). -/
def availableFeatures : List Feature := [
  { id := "aws-organizations", name := "AWS Organizations",
    description := "Basic account organization and management",
    category := .foundation, mandatory := true,
    infraCostImpact := 0, professionalServicesCostImpact := 0,
    availableInSizes := [.verySmall, .small, .medium, .large] },
  { id := "control-tower", name := "AWS Control Tower",
    description := "Landing zone setup and governance with guardrails",
    category := .foundation, mandatory := false,
    infraCostImpact := 50, professionalServicesCostImpact := 5000,
    availableInSizes := [.small, .medium, .large] },
  { id := "control-tower-extensions", name := "Control Tower Custom Extensions",
    description := "Advanced Control Tower customizations and extensions",
    category := .foundation, mandatory := false,
    infraCostImpact := 200, professionalServicesCostImpact := 15000,
    availableInSizes := [.large] },
  { id := "guardduty", name := "Amazon GuardDuty",
    description := "Threat detection and security monitoring",
    category := .security, mandatory := false,
    infraCostImpact := 100, professionalServicesCostImpact := 2000,
    availableInSizes := [.verySmall, .small, .medium, .large] },
  { id := "security-hub", name := "AWS Security Hub",
    description := "Centralized security findings and compliance dashboard",
    category := .security, mandatory := false,
    infraCostImpact := 150, professionalServicesCostImpact := 3000,
    availableInSizes := [.small, .medium, .large] },
  { id := "inspector", name := "Amazon Inspector",
    description := "Automated security assessment for applications",
    category := .security, mandatory := false,
    infraCostImpact := 75, professionalServicesCostImpact := 1500,
    availableInSizes := [.small, .medium, .large] },
  { id := "network-firewall", name := "AWS Network Firewall",
    description := "Managed network firewall service",
    category := .networking, mandatory := false,
    infraCostImpact := 300, professionalServicesCostImpact := 8000,
    availableInSizes := [.medium, .large] },
  { id := "transit-gateway", name := "AWS Transit Gateway",
    description := "Network transit hub for VPC connectivity",
    category := .networking, mandatory := false,
    infraCostImpact := 250, professionalServicesCostImpact := 5000,
    availableInSizes := [.small, .medium, .large] },
  { id := "direct-connect", name := "AWS Direct Connect",
    description := "Dedicated network connection to AWS",
    category := .networking, mandatory := false,
    infraCostImpact := 500, professionalServicesCostImpact := 10000,
    availableInSizes := [.medium, .large] },
  { id := "systems-manager", name := "AWS Systems Manager",
    description := "Operational data and automation across AWS resources",
    category := .automation, mandatory := false,
    infraCostImpact := 50, professionalServicesCostImpact := 3000,
    availableInSizes := [.small, .medium, .large] },
  { id := "cloudformation-stacksets", name := "CloudFormation StackSets",
    description := "Deploy CloudFormation stacks across multiple accounts",
    category := .automation, mandatory := false,
    infraCostImpact := 25, professionalServicesCostImpact := 4000,
    availableInSizes := [.medium, .large] },
  { id := "account-factory-terraform", name := "Account Factory for Terraform (AFT)",
    description := "Automated account provisioning with Terraform",
    category := .automation, mandatory := false,
    infraCostImpact := 100, professionalServicesCostImpact := 20000,
    availableInSizes := [.large] },
  { id := "cloudwatch-enhanced", name := "Enhanced CloudWatch Monitoring",
    description := "Advanced monitoring, dashboards, and alerting",
    category := .monitoring, mandatory := false,
    infraCostImpact := 200, professionalServicesCostImpact := 4000,
    availableInSizes := [.medium, .large] },
  { id := "cloudtrail-organization", name := "Organization-wide CloudTrail",
    description := "Centralized audit logging across all accounts",
    category := .monitoring, mandatory := true,
    infraCostImpact := 100, professionalServicesCostImpact := 2000,
    availableInSizes := [.small, .medium, .large] },
  { id := "elasticsearch-logging", name := "Elasticsearch Service for Logging",
    description := "Advanced log analytics and search capabilities",
    category := .monitoring, mandatory := false,
    infraCostImpact := 400, professionalServicesCostImpact := 8000,
    availableInSizes := [.large] }
]

/-- The very-small tier of `landingZoneConfigurations` in `shared/schema.ts`. -/
def verySmallConfig : LandingZoneConfig :=
  { size := .verySmall,
    name := "Very Small Customers (1-2 accounts)",
    description := "Perfect for startups and small businesses with minimal AWS infrastructure needs",
    accountStructure := "Management account + 1 workload account",
    organizationalStructure := "Minimal AWS Organizations structure with Root and Workloads OU",
    defaultVMs := 2, defaultStorageTB := 1,
    baseInfraCostPerMonth := 300, baseProfessionalServicesCost := 10000,
    managedServicesCostPerEC2 := 150, managedServicesCostPerTBStorage := 100,
    availableFeatures := ["aws-organizations", "guardduty"],
    mandatoryFeatures := ["aws-organizations"] }

/-- The small tier of `landingZoneConfigurations` in `shared/schema.ts`. -/
def smallConfig : LandingZoneConfig :=
  { size := .small,
    name := "Small Customers (3-5 accounts/apps)",
    description := "Ideal for growing companies with multiple applications and environments",
    accountStructure := "Management, Log archive, Audit accounts + 1+ workload accounts",
    organizationalStructure := "Basic AWS Organizations structure with Root, Core OU (Log, Audit), and Workloads OU",
    defaultVMs := 8, defaultStorageTB := 5,
    baseInfraCostPerMonth := 1200, baseProfessionalServicesCost := 25000,
    managedServicesCostPerEC2 := 180, managedServicesCostPerTBStorage := 120,
    availableFeatures := ["aws-organizations", "control-tower", "guardduty", "security-hub",
      "inspector", "transit-gateway", "systems-manager", "cloudtrail-organization"],
    mandatoryFeatures := ["aws-organizations", "cloudtrail-organization"] }

/-- The medium tier of `landingZoneConfigurations` in `shared/schema.ts`. -/
def mediumConfig : LandingZoneConfig :=
  { size := .medium,
    name := "Medium Customers (6-15 accounts/apps)",
    description := "Suitable for established businesses with complex multi-environment setups",
    accountStructure := "Management, Log archive, Audit, Shared services accounts + Separate Dev, Test, Prod accounts + business unit/app accounts",
    organizationalStructure := "More complex OU structure with Root, Core OU (Log, Audit, Shared Services), Prod OU, Non-Prod OU, Sandbox OU",
    defaultVMs := 25, defaultStorageTB := 15,
    baseInfraCostPerMonth := 5000, baseProfessionalServicesCost := 50000,
    managedServicesCostPerEC2 := 200, managedServicesCostPerTBStorage := 140,
    availableFeatures := ["aws-organizations", "control-tower", "guardduty", "security-hub",
      "inspector", "network-firewall", "transit-gateway", "direct-connect", "systems-manager",
      "cloudformation-stacksets", "cloudwatch-enhanced", "cloudtrail-organization"],
    mandatoryFeatures := ["aws-organizations", "cloudtrail-organization"] }

/-- The large tier of `landingZoneConfigurations` in `shared/schema.ts`. -/
def largeConfig : LandingZoneConfig :=
  { size := .large,
    name := "Large Customers (15+ accounts/apps)",
    description := "Enterprise-grade solution for large organizations with extensive AWS infrastructure",
    accountStructure := "Management, Log archive, Audit, Security, Shared services, Network accounts + Separate Dev, Test, Stage, Prod accounts + business unit/department/app accounts",
    organizationalStructure := "Comprehensive OU structure with Root, Infrastructure OU (Core, Network, Security), Prod OU (by business unit), Non-Prod OU (by business unit), Sandbox OU, Suspended OU",
    defaultVMs := 100, defaultStorageTB := 50,
    baseInfraCostPerMonth := 15000, baseProfessionalServicesCost := 100000,
    managedServicesCostPerEC2 := 250, managedServicesCostPerTBStorage := 160,
    availableFeatures := ["aws-organizations", "control-tower", "control-tower-extensions",
      "guardduty", "security-hub", "inspector", "network-firewall", "transit-gateway",
      "direct-connect", "systems-manager", "cloudformation-stacksets",
      "account-factory-terraform", "cloudwatch-enhanced", "cloudtrail-organization",
      "elasticsearch-logging"],
    mandatoryFeatures := ["aws-organizations", "cloudtrail-organization"] }

/-- `landingZoneConfigurations` of `shared/schema.ts`: the four fixed tiers. -/
def landingZoneConfigurations : List LandingZoneConfig :=
  [verySmallConfig, smallConfig, mediumConfig, largeConfig]

/-- Shape of `pricing.migrationPricing` in `shared/pricing-loader.ts`. -/
structure MigrationPricing where
  costPerVM : ℚ
  description : String
deriving DecidableEq, Repr

/-- Modelled from the spec: `getMigrationPricing` of `shared/pricing-loader.ts`
reads `pricing.migrationPricing` from `shared/pricing-config.json`, which is not
among the sources.  The spec fixes the migration rate at the static default of
$300 per VM, which matches the code's own fallback literal
`{ costPerVM: 300, description: "One-time migration cost per VM" }`. -/
def getMigrationPricing : MigrationPricing :=
  { costPerVM := 300, description := "One-time migration cost per VM" }

/-- The cost-calculation engine `calculateCosts` of `shared/costCalculations.ts`.
The TypeScript signature gives `additionalCosts` the default value `[]`; here the
argument is always explicit and callers that rely on the default pass `[]`. -/
def calculateCosts (config : LandingZoneConfig) (selectedFeatures : List String)
    (ec2Count storageTB : ℚ) (additionalCosts : List AdditionalCost) : CostBreakdown :=
  let selectedFeatureObjects := availableFeatures.filter fun feature =>
    decide (feature.id ∈ selectedFeatures) && decide (config.size ∈ feature.availableInSizes)
  let baseInfrastructureCost := config.baseInfraCostPerMonth
  let featuresInfrastructureCost :=
    selectedFeatureObjects.foldl (fun sum feature => sum + feature.infraCostImpact) 0
  let totalInfrastructureCost := baseInfrastructureCost + featuresInfrastructureCost
  let baseProfessionalServicesCost := config.baseProfessionalServicesCost
  let featuresProfessionalServicesCost :=
    selectedFeatureObjects.foldl (fun sum feature => sum + feature.professionalServicesCostImpact) 0
  let additionalCostsTotal := additionalCosts.foldl (fun sum cost => sum + cost.amount) 0
  let totalProfessionalServicesCost :=
    baseProfessionalServicesCost + featuresProfessionalServicesCost + additionalCostsTotal
  let migrationPricing := getMigrationPricing
  let migrationCostPerVM := migrationPricing.costPerVM
  let migrationVMCount := ec2Count
  let migrationCost := migrationVMCount * migrationCostPerVM
  let managedServicesEC2Cost := ec2Count * config.managedServicesCostPerEC2
  let managedServicesStorageCost := storageTB * config.managedServicesCostPerTBStorage
  let totalManagedServicesCost := managedServicesEC2Cost + managedServicesStorageCost
  let totalMonthlyCost := totalInfrastructureCost + totalManagedServicesCost
  let totalFirstYearCost := (totalMonthlyCost * 12) + totalProfessionalServicesCost + migrationCost
  { baseInfrastructureCost := baseInfrastructureCost,
    featuresInfrastructureCost := featuresInfrastructureCost,
    totalInfrastructureCost := totalInfrastructureCost,
    baseProfessionalServicesCost := baseProfessionalServicesCost,
    featuresProfessionalServicesCost := featuresProfessionalServicesCost,
    additionalCostsTotal := additionalCostsTotal,
    totalProfessionalServicesCost := totalProfessionalServicesCost,
    migrationCost := migrationCost,
    migrationCostPerVM := migrationCostPerVM,
    migrationVMCount := migrationVMCount,
    managedServicesEC2Cost := managedServicesEC2Cost,
    managedServicesStorageCost := managedServicesStorageCost,
    totalManagedServicesCost := totalManagedServicesCost,
    totalMonthlyCost := totalMonthlyCost,
    totalFirstYearCost := totalFirstYearCost }

/-- C1: for every tier, selected-feature list, compute-unit count, storage-volume
count, and additional-costs list, the `CostBreakdown` returned by `calculateCosts`
satisfies exactly the five additivity and grand-total equalities:
total infrastructure = base + features; total professional services = base +
features + additional; total managed services = EC2 + storage; total monthly =
infrastructure + managed services; total first year = monthly × 12 +
professional services + migration. -/
theorem calculateCosts_additivity (config : LandingZoneConfig)
    (selectedFeatures : List String) (ec2Count storageTB : ℚ)
    (additionalCosts : List AdditionalCost) :
    let b := calculateCosts config selectedFeatures ec2Count storageTB additionalCosts
    b.totalInfrastructureCost = b.baseInfrastructureCost + b.featuresInfrastructureCost ∧
    b.totalProfessionalServicesCost =
      b.baseProfessionalServicesCost + b.featuresProfessionalServicesCost + b.additionalCostsTotal ∧
    b.totalManagedServicesCost = b.managedServicesEC2Cost + b.managedServicesStorageCost ∧
    b.totalMonthlyCost = b.totalInfrastructureCost + b.totalManagedServicesCost ∧
    b.totalFirstYearCost = b.totalMonthlyCost * 12 + b.totalProfessionalServicesCost + b.migrationCost :=
  ⟨rfl, rfl, rfl, rfl, rfl⟩

/-- C8: `calculateCosts` is deterministic — for every fixed input tuple, any two
calls return identical `CostBreakdown` records (in the embedding the engine is a
pure total function, so repeated application to the same arguments is literally
the same value). -/
theorem calculateCosts_deterministic (config : LandingZoneConfig)
    (selectedFeatures : List String) (ec2Count storageTB : ℚ)
    (additionalCosts : List AdditionalCost) :
    calculateCosts config selectedFeatures ec2Count storageTB additionalCosts =
      calculateCosts config selectedFeatures ec2Count storageTB additionalCosts :=
  rfl

/-- C2 counterexample: in the very-small scenario (no features, 2 compute units,
1 storage unit, no additional costs) the code computes
`totalFirstYearCost = 700 × 12 + 10000 + 600 = 19000`, not the 18,600 the claim
states. -/
theorem verySmall_scenario_firstYear_not_18600 :
    (calculateCosts verySmallConfig [] 2 1 []).totalFirstYearCost = 19000 ∧
      (calculateCosts verySmallConfig [] 2 1 []).totalFirstYearCost ≠ 18600 := by
  constructor <;>
    norm_num [calculateCosts, availableFeatures, verySmallConfig, getMigrationPricing,
      List.filter]

/-- C2 (amended): for the very-small tier (base infrastructure 300/month, base
professional services 10000, managed services 150 per compute unit and 100 per
TB, migration 300 per VM), `calculateCosts` with no selected features, 2 compute
units, 1 storage unit and no additional costs yields infrastructure total 300,
professional-services total 10000, migration total 600, managed-services total
400, `totalMonthlyCost` 700 and `totalFirstYearCost` 19,000 (= 700 × 12 + 10000
+ 600; the claim's figure of 18,600 contradicts its own formula). -/
theorem verySmall_scenario :
    verySmallConfig.baseInfraCostPerMonth = 300 ∧
    verySmallConfig.baseProfessionalServicesCost = 10000 ∧
    verySmallConfig.managedServicesCostPerEC2 = 150 ∧
    verySmallConfig.managedServicesCostPerTBStorage = 100 ∧
    getMigrationPricing.costPerVM = 300 ∧
    (calculateCosts verySmallConfig [] 2 1 []).totalInfrastructureCost = 300 ∧
    (calculateCosts verySmallConfig [] 2 1 []).totalProfessionalServicesCost = 10000 ∧
    (calculateCosts verySmallConfig [] 2 1 []).migrationCost = 600 ∧
    (calculateCosts verySmallConfig [] 2 1 []).totalManagedServicesCost = 400 ∧
    (calculateCosts verySmallConfig [] 2 1 []).totalMonthlyCost = 700 ∧
    (calculateCosts verySmallConfig [] 2 1 []).totalFirstYearCost = 19000 := by
  refine ⟨?_, ?_, ?_, ?_, ?_, ?_, ?_, ?_, ?_, ?_, ?_⟩ <;>
    norm_num [calculateCosts, availableFeatures, verySmallConfig, getMigrationPricing,
      List.filter]

/-- Selections with the same members select the same catalog features, hence the
same breakdown: the engine only ever tests membership of a feature id in the
selection list. -/
theorem calculateCosts_congr_selection (config : LandingZoneConfig)
    {S S' : List String} (h : ∀ x, x ∈ S ↔ x ∈ S') (ec2Count storageTB : ℚ)
    (additionalCosts : List AdditionalCost) :
    calculateCosts config S ec2Count storageTB additionalCosts =
      calculateCosts config S' ec2Count storageTB additionalCosts := by
  have hfilter :
      (availableFeatures.filter fun feature =>
        decide (feature.id ∈ S) && decide (config.size ∈ feature.availableInSizes)) =
      (availableFeatures.filter fun feature =>
        decide (feature.id ∈ S') && decide (config.size ∈ feature.availableInSizes)) := by
    apply List.filter_congr
    intro f _
    have : (decide (f.id ∈ S)) = (decide (f.id ∈ S')) := by
      simp [h f.id]
    rw [this]
  simp only [calculateCosts, hfilter]

/-- C4: duplicated feature ids in the selection do not double-count — for every
input, the breakdown for a selection list equals the breakdown for its
deduplication. -/
theorem calculateCosts_dedup (config : LandingZoneConfig) (selectedFeatures : List String)
    (ec2Count storageTB : ℚ) (additionalCosts : List AdditionalCost) :
    calculateCosts config selectedFeatures ec2Count storageTB additionalCosts =
      calculateCosts config selectedFeatures.dedup ec2Count storageTB additionalCosts :=
  calculateCosts_congr_selection config
    (fun x => (List.mem_dedup (a := x) (l := selectedFeatures)).symm) ec2Count storageTB
    additionalCosts

/-- Catalog/tier consistency of the static data: whenever a catalog feature lists a
tier's size in `availableInSizes`, that tier lists the feature id in
`availableFeatures`.  This is the bridge between the spec's phrasing (tier's
`availableFeatures` list) and the code's filter (feature's `availableInSizes`). -/
theorem catalog_tier_consistency :
    ∀ config ∈ landingZoneConfigurations, ∀ f ∈ availableFeatures,
      config.size ∈ f.availableInSizes → f.id ∈ config.availableFeatures := by
  decide

/-- C3: for every tier and every feature id not in the tier's `availableFeatures`
list, a selection including that id yields a `CostBreakdown` identical in every
field to the selection with that id removed (tier, other ids, quantities and
additional costs held fixed); the engine is total, so no error is raised. -/
theorem calculateCosts_unavailable_feature_ignored (config : LandingZoneConfig)
    (hc : config ∈ landingZoneConfigurations) (fid : String)
    (hfid : fid ∉ config.availableFeatures) (S : List String) (ec2Count storageTB : ℚ)
    (additionalCosts : List AdditionalCost) :
    calculateCosts config S ec2Count storageTB additionalCosts =
      calculateCosts config (S.filter fun x => x ≠ fid) ec2Count storageTB additionalCosts := by
  have hfilter :
      (availableFeatures.filter fun feature =>
        decide (feature.id ∈ S) && decide (config.size ∈ feature.availableInSizes)) =
      (availableFeatures.filter fun feature =>
        decide (feature.id ∈ S.filter fun x => x ≠ fid) &&
          decide (config.size ∈ feature.availableInSizes)) := by
    apply List.filter_congr
    intro f hcat
    by_cases hsz : config.size ∈ f.availableInSizes
    · have hid : f.id ≠ fid := fun h =>
        hfid (h ▸ catalog_tier_consistency config hc f hcat hsz)
      simp [List.mem_filter, hid]
    · simp [hsz]
  simp only [calculateCosts, hfilter]

/-- C3 witness: the very-small tier does not offer `control-tower`, and selecting
it together with `guardduty` gives the same breakdown as selecting `guardduty`
alone. -/
theorem calculateCosts_unavailable_feature_ignored_witness :
    calculateCosts verySmallConfig ["control-tower", "guardduty"] 2 1 [] =
      calculateCosts verySmallConfig
        (["control-tower", "guardduty"].filter fun x => x ≠ "control-tower") 2 1 [] :=
  calculateCosts_unavailable_feature_ignored verySmallConfig
    (by simp [landingZoneConfigurations]) "control-tower" (by decide)
    ["control-tower", "guardduty"] 2 1 []

/-- C7: holding the tier, the selection, the storage-volume count and the
additional costs fixed, increasing the compute-unit count from `a` to `b ≥ a`
never decreases `managedServicesEC2Cost`, `migrationCost`, `totalMonthlyCost`
or `totalFirstYearCost`. -/
theorem calculateCosts_monotone_ec2 (config : LandingZoneConfig)
    (hc : config ∈ landingZoneConfigurations) (S : List String) (storageTB : ℚ)
    (additionalCosts : List AdditionalCost) (a b : ℚ) (hab : a ≤ b) :
    (calculateCosts config S a storageTB additionalCosts).managedServicesEC2Cost ≤
      (calculateCosts config S b storageTB additionalCosts).managedServicesEC2Cost ∧
    (calculateCosts config S a storageTB additionalCosts).migrationCost ≤
      (calculateCosts config S b storageTB additionalCosts).migrationCost ∧
    (calculateCosts config S a storageTB additionalCosts).totalMonthlyCost ≤
      (calculateCosts config S b storageTB additionalCosts).totalMonthlyCost ∧
    (calculateCosts config S a storageTB additionalCosts).totalFirstYearCost ≤
      (calculateCosts config S b storageTB additionalCosts).totalFirstYearCost := by
  have hrate : (0 : ℚ) ≤ config.managedServicesCostPerEC2 := by
    simp only [landingZoneConfigurations, List.mem_cons, List.not_mem_nil, or_false] at hc
    rcases hc with rfl | rfl | rfl | rfl <;>
      norm_num [verySmallConfig, smallConfig, mediumConfig, largeConfig]
  have h1 : a * config.managedServicesCostPerEC2 ≤ b * config.managedServicesCostPerEC2 :=
    mul_le_mul_of_nonneg_right hab hrate
  have h2 : a * getMigrationPricing.costPerVM ≤ b * getMigrationPricing.costPerVM := by
    apply mul_le_mul_of_nonneg_right hab
    norm_num [getMigrationPricing]
  refine ⟨?_, ?_, ?_, ?_⟩ <;> simp only [calculateCosts] <;> linarith

/-- C7 witness: on the very-small tier with no features, going from 1 to 2
compute units does not decrease any of the four quantities. -/
theorem calculateCosts_monotone_ec2_witness :
    (calculateCosts verySmallConfig [] 1 1 []).managedServicesEC2Cost ≤
      (calculateCosts verySmallConfig [] 2 1 []).managedServicesEC2Cost ∧
    (calculateCosts verySmallConfig [] 1 1 []).migrationCost ≤
      (calculateCosts verySmallConfig [] 2 1 []).migrationCost ∧
    (calculateCosts verySmallConfig [] 1 1 []).totalMonthlyCost ≤
      (calculateCosts verySmallConfig [] 2 1 []).totalMonthlyCost ∧
    (calculateCosts verySmallConfig [] 1 1 []).totalFirstYearCost ≤
      (calculateCosts verySmallConfig [] 2 1 []).totalFirstYearCost :=
  calculateCosts_monotone_ec2 verySmallConfig (by simp [landingZoneConfigurations])
    [] 1 [] 1 2 (by norm_num)

/-- `costCalculationSchema` of `shared/schema.ts`: the calculation part of a
validated submission request (`additionalCosts` defaults to `[]` in the schema
but may carry entries sent by the client). -/
structure CostCalculation where
  selectedConfig : String
  selectedFeatures : List String
  customEC2Count : ℚ
  customStorageTB : ℚ
  additionalCosts : List AdditionalCost
deriving DecidableEq, Repr

/-- The cost-relevant outcome of `POST /api/submissions` in `server/routes.ts`:
the `totalEstimatedCost` stored in the submission's metrics and the
`estimatedCost` field of the 201 response body. -/
structure SubmissionCostOutcome where
  totalEstimatedCost : ℚ
  estimatedCost : ℚ
deriving DecidableEq, Repr

/-- The tier lookup of the submission route
(`landingZoneConfigurations.find(config => config.size === selectedConfig)`). -/
def findSelectedConfig (selectedConfig : String) : Option LandingZoneConfig :=
  landingZoneConfigurations.find? fun config => config.size.code == selectedConfig

/-- The cost path of the `POST /api/submissions` handler in `server/routes.ts`:
resolve the tier (`none` models the 400 "Invalid configuration size" response),
call `calculateCosts` with only four arguments — so `additionalCosts` takes its
TypeScript default `[]` — and store/return `costBreakdown.totalFirstYearCost`. -/
def handleSubmission (costCalculation : CostCalculation) : Option SubmissionCostOutcome :=
  match findSelectedConfig costCalculation.selectedConfig with
  | none => none
  | some selectedConfig =>
    let costBreakdown := calculateCosts selectedConfig costCalculation.selectedFeatures
      costCalculation.customEC2Count costCalculation.customStorageTB []
    some { totalEstimatedCost := costBreakdown.totalFirstYearCost,
           estimatedCost := costBreakdown.totalFirstYearCost }

/-- C6: for every valid submission request, the stored `totalEstimatedCost` and
the returned `estimatedCost` both equal `calculateCosts` applied with an empty
additional-costs list, and replacing the request's `additionalCosts` array by
any other list leaves the route's outcome unchanged. -/
theorem submission_ignores_additional_costs (costCalculation : CostCalculation)
    (otherCosts : List AdditionalCost) (config : LandingZoneConfig)
    (hfind : findSelectedConfig costCalculation.selectedConfig = some config) :
    handleSubmission costCalculation = some
      { totalEstimatedCost := (calculateCosts config costCalculation.selectedFeatures
          costCalculation.customEC2Count costCalculation.customStorageTB []).totalFirstYearCost,
        estimatedCost := (calculateCosts config costCalculation.selectedFeatures
          costCalculation.customEC2Count costCalculation.customStorageTB []).totalFirstYearCost } ∧
    handleSubmission { costCalculation with additionalCosts := otherCosts } =
      handleSubmission costCalculation := by
  constructor
  · simp [handleSubmission, hfind]
  · rfl

/-- C6 witness: a request for the very-small tier with a nonempty
additional-costs array stores and returns the first-year total computed with the
empty list, and swapping the array for the empty one changes nothing. -/
theorem submission_ignores_additional_costs_witness :
    handleSubmission
        { selectedConfig := "very-small", selectedFeatures := [],
          customEC2Count := 2, customStorageTB := 1,
          additionalCosts := [{ id := "1", description := "training", amount := 5000 }] } = some
      { totalEstimatedCost := (calculateCosts verySmallConfig [] 2 1 []).totalFirstYearCost,
        estimatedCost := (calculateCosts verySmallConfig [] 2 1 []).totalFirstYearCost } ∧
    handleSubmission
        { selectedConfig := "very-small", selectedFeatures := [],
          customEC2Count := 2, customStorageTB := 1, additionalCosts := [] } =
      handleSubmission
        { selectedConfig := "very-small", selectedFeatures := [],
          customEC2Count := 2, customStorageTB := 1,
          additionalCosts := [{ id := "1", description := "training", amount := 5000 }] } :=
  submission_ignores_additional_costs
    { selectedConfig := "very-small", selectedFeatures := [],
      customEC2Count := 2, customStorageTB := 1,
      additionalCosts := [{ id := "1", description := "training", amount := 5000 }] }
    [] verySmallConfig rfl

/-- Shape of the entries of `pricing.featurePricing` in `shared/pricing-loader.ts`. -/
structure FeaturePricing where
  infraCostImpact : ℚ
  professionalServicesCostImpact : ℚ
deriving DecidableEq, Repr

/-- `getFeaturePricing` of `shared/pricing-loader.ts`:
`pricing.featurePricing[featureId] || { infraCostImpact: 0,
professionalServicesCostImpact: 0 }`.  The table itself is loaded from
`shared/pricing-config.json`, which is not among the sources, so it is an
explicit argument here. -/
def getFeaturePricing (featurePricing : List (String × FeaturePricing))
    (featureId : String) : FeaturePricing :=
  (featurePricing.lookup featureId).getD
    { infraCostImpact := 0, professionalServicesCostImpact := 0 }

/-- C9: `getFeaturePricing` never errors — a feature id with no entry in the
static pricing table yields exactly `{infraCostImpact: 0,
professionalServicesCostImpact: 0}`, and a feature id with an entry yields that
entry. -/
theorem getFeaturePricing_total (featurePricing : List (String × FeaturePricing))
    (featureId : String) :
    (featureId ∉ featurePricing.map Prod.fst →
      getFeaturePricing featurePricing featureId =
        { infraCostImpact := 0, professionalServicesCostImpact := 0 }) ∧
    (∀ v, featurePricing.lookup featureId = some v →
      getFeaturePricing featurePricing featureId = v) := by
  constructor
  · intro hnot
    have hnone : featurePricing.lookup featureId = none := by
      rw [List.lookup_eq_none_iff]
      intro p hp
      rw [bne_iff_ne]
      intro he
      exact hnot (he ▸ List.mem_map_of_mem Prod.fst hp)
    simp [getFeaturePricing, hnone]
  · intro v hv
    simp [getFeaturePricing, hv]

/-- C9 witness: with a one-entry table, an unknown id gets the zero record and
the known id gets its entry. -/
theorem getFeaturePricing_total_witness :
    getFeaturePricing [("guardduty", ⟨100, 2000⟩)] "unknown-feature" =
      { infraCostImpact := 0, professionalServicesCostImpact := 0 } ∧
    getFeaturePricing [("guardduty", ⟨100, 2000⟩)] "guardduty" =
      { infraCostImpact := 100, professionalServicesCostImpact := 2000 } :=
  ⟨(getFeaturePricing_total [("guardduty", ⟨100, 2000⟩)] "unknown-feature").1 (by decide),
   (getFeaturePricing_total [("guardduty", ⟨100, 2000⟩)] "guardduty").2 ⟨100, 2000⟩ rfl⟩

/-- Source tag of a live pricing cache entry (`shared/aws-pricing-loader.ts`). -/
inductive PricingSource where
  | awsPricingApi
  | fallback
  | manual
deriving DecidableEq, Repr

/-- One entry of `AWSPricingCache.featurePricing` in `shared/aws-pricing-loader.ts`.
Timestamps are milliseconds since the epoch, as numbers. -/
structure AWSFeaturePricingData where
  infraCostImpact : ℚ
  source : PricingSource
  lastUpdated : ℤ
  region : Option String
deriving DecidableEq, Repr

/-- The `AWSPricingCache` interface of `shared/aws-pricing-loader.ts`. -/
structure AWSPricingCache where
  lastUpdated : ℤ
  publicationDate : String
  featurePricing : List (String × AWSFeaturePricingData)
deriving DecidableEq, Repr

/-- `CACHE_DURATION_MS = 24 * 60 * 60 * 1000` of `shared/aws-pricing-loader.ts`. -/
def CACHE_DURATION_MS : ℤ := 24 * 60 * 60 * 1000

/-- `getCachedAWSPricing` of `shared/aws-pricing-loader.ts`: the module-level
mutable `pricingCache` is the explicit first argument. -/
def getCachedAWSPricing (pricingCache : Option AWSPricingCache)
    (featureId : String) : Option ℚ :=
  match pricingCache with
  | none => none
  | some cache =>
    match cache.featurePricing.lookup featureId with
    | none => none
    | some featureData => some featureData.infraCostImpact

/-- `isAWSPricingCacheValid` of `shared/aws-pricing-loader.ts`: `now` is the
value of `Date.now()` at the call. -/
def isAWSPricingCacheValid (pricingCache : Option AWSPricingCache) (now : ℤ) : Bool :=
  match pricingCache with
  | none => false
  | some cache => decide (now - cache.lastUpdated < CACHE_DURATION_MS)

/-- C10: `getCachedAWSPricing` does no freshness check — it takes no clock input
at all, returns the entry's `infraCostImpact` whenever the cache has an entry
for the id (whatever the cache's `lastUpdated` is), and returns `null` exactly
when the cache is absent or has no entry; expiry lives only in the separate
`isAWSPricingCacheValid`, which compares the cache's last-built timestamp
against the 24-hour duration. -/
theorem getCachedAWSPricing_no_freshness (pricingCache : Option AWSPricingCache)
    (featureId : String) :
    (∀ cache featureData, pricingCache = some cache →
      cache.featurePricing.lookup featureId = some featureData →
      getCachedAWSPricing pricingCache featureId = some featureData.infraCostImpact) ∧
    (getCachedAWSPricing pricingCache featureId = none ↔
      pricingCache = none ∨ ∃ cache, pricingCache = some cache ∧
        cache.featurePricing.lookup featureId = none) ∧
    (∀ now : ℤ, isAWSPricingCacheValid pricingCache now = true ↔
      ∃ cache, pricingCache = some cache ∧ now - cache.lastUpdated < CACHE_DURATION_MS) := by
  refine ⟨?_, ?_, ?_⟩
  · rintro cache featureData rfl hl
    simp [getCachedAWSPricing, hl]
  · cases pricingCache with
    | none => simp [getCachedAWSPricing]
    | some cache =>
      cases hl : cache.featurePricing.lookup featureId with
      | none =>
        simp only [getCachedAWSPricing, hl]
        exact ⟨fun _ => Or.inr ⟨cache, rfl, hl⟩, fun _ => trivial⟩
      | some featureData =>
        simp only [getCachedAWSPricing, hl]
        constructor
        · intro h
          exact Option.noConfusion h
        · rintro (h | ⟨c, hc, hn⟩)
          · exact Option.noConfusion h
          · obtain rfl : cache = c := by injection hc
            rw [hl] at hn
            exact Option.noConfusion hn
  · intro now
    cases pricingCache with
    | none => simp [isAWSPricingCacheValid]
    | some cache => simp [isAWSPricingCacheValid]

/-- C10 witness: a cache last built at epoch time 0 (arbitrarily stale) still
serves its entry's value, yet the validity predicate rejects it at a clock one
year later. -/
theorem getCachedAWSPricing_no_freshness_witness :
    getCachedAWSPricing
      (some ⟨0, "", [("guardduty", ⟨123, .awsPricingApi, 0, some "us-east-2"⟩)]⟩)
      "guardduty" = some 123 :=
  (getCachedAWSPricing_no_freshness
    (some ⟨0, "", [("guardduty", ⟨123, .awsPricingApi, 0, some "us-east-2"⟩)]⟩)
    "guardduty").1 ⟨0, "", [("guardduty", ⟨123, .awsPricingApi, 0, some "us-east-2"⟩)]⟩
    ⟨123, .awsPricingApi, 0, some "us-east-2"⟩ rfl rfl

/-- The `AWSServiceOffer` interface of `shared/aws-pricing-loader.ts`. -/
structure AWSServiceOffer where
  offerCode : String
  versionIndexUrl : String
  currentVersionUrl : String
  currentRegionIndexUrl : String
deriving DecidableEq, Repr

/-- The `AWSPriceIndex` interface of `shared/aws-pricing-loader.ts`
(`offers` is a JSON record, modelled as an association list). -/
structure AWSPriceIndex where
  formatVersion : String
  disclaimer : String
  publicationDate : String
  offers : List (String × AWSServiceOffer)
deriving DecidableEq, Repr

/-- Opaque JSON payload of one region's pricing data; the repository's parsers
never read it (their estimates are hard-coded). -/
structure AWSRegionData where
  payload : String
deriving DecidableEq, Repr

/-- Shape of the region index fetched by `fetchServicePricing`
(`regionIndex.regions?.[region]`). -/
structure AWSRegionIndex where
  regions : List (String × AWSRegionData)
deriving DecidableEq, Repr

/-- The `ServiceMapping` interface of `shared/aws-pricing-loader.ts`; the data
comes from `shared/aws-service-mapping.json`, so the mapping list is an
explicit argument wherever the code reads `serviceMapping.mappings`. -/
structure ServiceMapping where
  featureId : String
  awsOfferCode : String
  awsServiceName : String
  notes : String
deriving DecidableEq, Repr

/-- Environment of the two network fetches of `shared/aws-pricing-loader.ts`.
A `.error` models a failed fetch (`!response.ok`, a network exception, or a
body on which `response.json()` throws): in the code each of these surfaces as
a thrown exception that the overlay catches. -/
structure AWSFetchEnv where
  priceIndex : Except String AWSPriceIndex
  servicePricing : String → String → Except String AWSRegionIndex

/-- JavaScript's `Math.round` (round half toward positive infinity). -/
def jsRound (q : ℚ) : ℚ := ((⌊q + 1 / 2⌋ : ℤ) : ℚ)

/-- `parseGuardDutyPricing` of `shared/aws-pricing-loader.ts`: a hard-coded
estimate of 100 GB/month run through the tiered GuardDuty rates; the fetched
service data is ignored. -/
def parseGuardDutyPricing (serviceData : AWSRegionData) (region : String) : ℚ :=
  let estimatedMonthlyUsageGB : ℚ := 100
  let monthlyCost : ℚ :=
    if estimatedMonthlyUsageGB ≤ 500 then estimatedMonthlyUsageGB * 1
    else if estimatedMonthlyUsageGB ≤ 2500 then 500 * 1 + (estimatedMonthlyUsageGB - 500) * 0.50
    else 500 * 1 + 2000 * 0.50 + (estimatedMonthlyUsageGB - 2500) * 0.25
  jsRound monthlyCost

/-- `parseTransitGatewayPricing` of `shared/aws-pricing-loader.ts`. -/
def parseTransitGatewayPricing : ℚ :=
  let baseCost : ℚ := 36
  let estimatedGB : ℚ := 500
  let dataProcessingCost : ℚ := estimatedGB * 0.02
  jsRound (baseCost + dataProcessingCost)

/-- `parseNetworkFirewallPricing` of `shared/aws-pricing-loader.ts`. -/
def parseNetworkFirewallPricing : ℚ :=
  let baseCost : ℚ := 365
  let estimatedGB : ℚ := 1000
  let dataProcessingCost : ℚ := estimatedGB * 0.065
  jsRound (baseCost + dataProcessingCost)

/-- `aggregateFeaturePricing` of `shared/aws-pricing-loader.ts`.  The whole body
sits in a `try/catch` that maps any thrown error to `0`; a missing offer code or
region likewise returns `0` after a console warning.  The embedding is therefore
a total function: every failure path is the explicit `0` result. -/
def aggregateFeaturePricing (env : AWSFetchEnv) (featureId offerCode region : String) : ℚ :=
  match env.priceIndex with
  | .error _ => 0
  | .ok priceIndex =>
    match priceIndex.offers.lookup offerCode with
    | none => 0
    | some offer =>
      match env.servicePricing offerCode offer.currentRegionIndexUrl with
      | .error _ => 0
      | .ok regionIndex =>
        match regionIndex.regions.lookup region with
        | none => 0
        | some regionData =>
          if featureId = "guardduty" then parseGuardDutyPricing regionData region
          else if featureId = "transit-gateway" then parseTransitGatewayPricing
          else if featureId = "network-firewall" then parseNetworkFirewallPricing
          else if featureId = "aws-organizations" ∨ featureId = "control-tower" ∨
              featureId = "iam-basic" then 0
          else 0

/-- `buildAWSPricingCache` of `shared/aws-pricing-loader.ts`.  The module-level
`pricingCache` is the explicit `pricingCache` argument, `now` is `Date.now()`
and `nowIso` is `new Date().toISOString()`.  The per-mapping `try/catch` with a
`source: fallback` entry is unreachable once `aggregateFeaturePricing` is total,
so every mapping yields an `aws-pricing-api` entry. -/
def buildAWSPricingCache (env : AWSFetchEnv) (mappings : List ServiceMapping)
    (region : String) (forceRefresh : Bool) (pricingCache : Option AWSPricingCache)
    (now : ℤ) (nowIso : String) : AWSPricingCache :=
  let freshCache : AWSPricingCache :=
    { lastUpdated := now, publicationDate := nowIso,
      featurePricing := mappings.map fun mapping =>
        (mapping.featureId,
          { infraCostImpact :=
              aggregateFeaturePricing env mapping.featureId mapping.awsOfferCode region,
            source := .awsPricingApi, lastUpdated := now, region := some region }) }
  match pricingCache, forceRefresh with
  | some cache, false =>
    if now - cache.lastUpdated < CACHE_DURATION_MS then cache else freshCache
  | _, _ => freshCache

/-- Modelled from the spec: the cache-aware variant of `getFeaturePricing`.
`AWS_PRICING_INTEGRATION.md` states that `shared/pricing-loader.ts` now checks
the AWS cache first and falls back to manual pricing, and gives its body: when
the cache is valid and holds a positive cached cost for the feature, that cost
replaces the infrastructure figure while professional services stay static;
otherwise the static table answers.  That enhanced body is not among the
sources, so it is reconstructed here from the document's snippet. -/
def getFeaturePricingWithAWS (pricingCache : Option AWSPricingCache) (now : ℤ)
    (featurePricing : List (String × FeaturePricing)) (featureId : String) : FeaturePricing :=
  if isAWSPricingCacheValid pricingCache now then
    match getCachedAWSPricing pricingCache featureId with
    | some awsInfraCost =>
      if 0 < awsInfraCost then
        { infraCostImpact := awsInfraCost,
          professionalServicesCostImpact :=
            (getFeaturePricing featurePricing featureId).professionalServicesCostImpact }
      else getFeaturePricing featurePricing featureId
    | none => getFeaturePricing featurePricing featureId
  else getFeaturePricing featurePricing featureId

/-- The four failure modes of one live-pricing aggregation: index fetch fails or
is malformed, the offer code is missing, the region-index fetch fails or is
malformed, or the region is missing. -/
def fetchFailure (env : AWSFetchEnv) (offerCode region : String) : Prop :=
  (∃ e, env.priceIndex = .error e) ∨
  (∃ priceIndex, env.priceIndex = .ok priceIndex ∧
    priceIndex.offers.lookup offerCode = none) ∨
  (∃ priceIndex offer, env.priceIndex = .ok priceIndex ∧
    priceIndex.offers.lookup offerCode = some offer ∧
    ∃ e, env.servicePricing offerCode offer.currentRegionIndexUrl = .error e) ∨
  (∃ priceIndex offer regionIndex, env.priceIndex = .ok priceIndex ∧
    priceIndex.offers.lookup offerCode = some offer ∧
    env.servicePricing offerCode offer.currentRegionIndexUrl = .ok regionIndex ∧
    regionIndex.regions.lookup region = none)

/-- Every failure mode makes `aggregateFeaturePricing` return `0`. -/
theorem aggregateFeaturePricing_eq_zero_of_failure (env : AWSFetchEnv)
    (featureId offerCode region : String) (h : fetchFailure env offerCode region) :
    aggregateFeaturePricing env featureId offerCode region = 0 := by
  rcases h with ⟨e, he⟩ | ⟨pi, hpi, ho⟩ | ⟨pi, offer, hpi, ho, e, he⟩ |
    ⟨pi, offer, ri, hpi, ho, hr, hreg⟩ <;>
    simp [aggregateFeaturePricing, *]

/-- Looking up a feature id in the cache rows built from the mapping list finds
the row of the first mapping with that id. -/
theorem lookup_map_featureId {β : Type} (g : ServiceMapping → β)
    (mappings : List ServiceMapping) (fid : String) :
    (mappings.map fun mapping => (mapping.featureId, g mapping)).lookup fid =
      (mappings.find? fun mapping => fid == mapping.featureId).map g := by
  induction mappings with
  | nil => rfl
  | cons hd tl ih =>
    simp only [List.map_cons, List.lookup, List.find?]
    cases h : (fid == hd.featureId) <;> simp [h, ih]

/-- C5: a failure while building the live pricing cache (fetch failure, missing
offer, missing region, malformed response) is absorbed: the aggregation returns
`0` instead of erroring, and the overlay then serves the static catalog value
for that feature — `getFeaturePricingWithAWS` over the freshly built cache
coincides with the static `getFeaturePricing`, at any later clock. -/
theorem live_pricing_failure_absorbed (env : AWSFetchEnv)
    (featureId offerCode region : String) (hfail : fetchFailure env offerCode region)
    (mappings : List ServiceMapping)
    (hm : ∀ mapping ∈ mappings, mapping.featureId = featureId →
      fetchFailure env mapping.awsOfferCode region)
    (forceRefresh : Bool) (now checkTime : ℤ) (nowIso : String)
    (featurePricing : List (String × FeaturePricing)) :
    aggregateFeaturePricing env featureId offerCode region = 0 ∧
    getFeaturePricingWithAWS
        (some (buildAWSPricingCache env mappings region forceRefresh none now nowIso))
        checkTime featurePricing featureId =
      getFeaturePricing featurePricing featureId := by
  refine ⟨aggregateFeaturePricing_eq_zero_of_failure env featureId offerCode region hfail, ?_⟩
  have hbuild : (buildAWSPricingCache env mappings region forceRefresh none now nowIso).featurePricing =
      mappings.map fun mapping =>
        (mapping.featureId,
          ({ infraCostImpact :=
               aggregateFeaturePricing env mapping.featureId mapping.awsOfferCode region,
             source := .awsPricingApi, lastUpdated := now,
             region := some region } : AWSFeaturePricingData)) := by
    cases forceRefresh <;> rfl
  cases hv : isAWSPricingCacheValid
      (some (buildAWSPricingCache env mappings region forceRefresh none now nowIso)) checkTime with
  | false => simp [getFeaturePricingWithAWS, hv]
  | true =>
    cases hfind : mappings.find? fun mapping => featureId == mapping.featureId with
    | none =>
      have hcached : getCachedAWSPricing
          (some (buildAWSPricingCache env mappings region forceRefresh none now nowIso))
          featureId = none := by
        simp [getCachedAWSPricing, hbuild, lookup_map_featureId, hfind]
      simp [getFeaturePricingWithAWS, hv, hcached]
    | some mapping =>
      have hmem := List.mem_of_find?_eq_some hfind
      have hbeq : (featureId == mapping.featureId) = true := by
        simpa using List.find?_some hfind
      have hfid : mapping.featureId = featureId := (eq_of_beq hbeq).symm
      have hzero : aggregateFeaturePricing env mapping.featureId mapping.awsOfferCode region = 0 :=
        aggregateFeaturePricing_eq_zero_of_failure env mapping.featureId mapping.awsOfferCode
          region (hm mapping hmem hfid)
      have hcached : getCachedAWSPricing
          (some (buildAWSPricingCache env mappings region forceRefresh none now nowIso))
          featureId = some 0 := by
        simp [getCachedAWSPricing, hbuild, lookup_map_featureId, hfind, hzero]
      simp [getFeaturePricingWithAWS, hv, hcached]

/-- C5 witness: with the price-index fetch failing outright, aggregation for
`guardduty` yields 0 and the overlay over the freshly built cache returns the
static catalog record. -/
theorem live_pricing_failure_absorbed_witness :
    aggregateFeaturePricing
        (⟨Except.error "offline", fun _ _ => Except.error "offline"⟩ : AWSFetchEnv)
        "guardduty" "AmazonGuardDuty" "us-east-2" = 0 ∧
    getFeaturePricingWithAWS
        (some (buildAWSPricingCache
          (⟨Except.error "offline", fun _ _ => Except.error "offline"⟩ : AWSFetchEnv)
          [⟨"guardduty", "AmazonGuardDuty", "Amazon GuardDuty", ""⟩]
          "us-east-2" true none 0 ""))
        0 [("guardduty", ⟨100, 2000⟩)] "guardduty" =
      getFeaturePricing [("guardduty", ⟨100, 2000⟩)] "guardduty" :=
  live_pricing_failure_absorbed
    (⟨Except.error "offline", fun _ _ => Except.error "offline"⟩ : AWSFetchEnv)
    "guardduty" "AmazonGuardDuty" "us-east-2" (Or.inl ⟨"offline", rfl⟩)
    [⟨"guardduty", "AmazonGuardDuty", "Amazon GuardDuty", ""⟩]
    (fun _ _ _ => Or.inl ⟨"offline", rfl⟩)
    true 0 0 "" [("guardduty", ⟨100, 2000⟩)]

end AWSLZ
